import Mathlib

/-!
Verification of the Kafka-Cascade orchestration engine (`CascadeService` in
`src/kafka-cascade/src/cascadeService.ts`) against its natural-language
specification.  The TypeScript class is shallowly embedded: its mutable
fields become a Lean structure, its loops become recursive functions, and
its async try/catch bodies become functions from sub-operation outcomes
(`Option String`, `none` = success, `some e` = the operation threw `e`) to
an emitted-event trace plus an `Except` settlement of the returned promise.

`CascadeProducer` and `CascadeConsumer` are external collaborators whose
sources are not part of this development; where their behaviour decides a
property they are modelled from the specification (marked in doc comments).
-/

namespace KafkaCascade

/-- The fixed recognized event set of `CascadeService`
(`cascadeService.ts` lines 31-44). -/
def events : List String :=
  [ "connect", "disconnect", "run", "stop", "pause", "resume",
    "receive", "success", "retry", "dlq", "error", "serviceError" ]

/-- `this.topic + '-cascade-retry-' + n` — the retry level topic name built at
`cascadeService.ts` line 111 (with `n = i + 1`). -/
def retryTopicName (topic : String) (n : Nat) : String :=
  topic ++ "-cascade-retry-" ++ Nat.repr n

/-- The retry-level related mutable fields of `CascadeService`:
`topic` (set once in the constructor), `retries` and `topicsArr`
(`cascadeService.ts` lines 21, 25-26). -/
structure ServiceState where
  topic : String
  retries : Nat
  topicsArr : List String
  deriving Repr, DecidableEq

/-- Constructor initialization: `this.retries = 0; this.topicsArr = []`
(`cascadeService.ts` lines 54-55). -/
def initState (topic : String) : ServiceState :=
  { topic := topic, retries := 0, topicsArr := [] }

/-- The shrink loop of `setRetryLevels`: `for(let i = 0; i < diff; i++)
this.topicsArr.pop()` (`cascadeService.ts` lines 104-107); `pop` removes
the last element. -/
def popLoop : List String → Nat → List String
  | arr, 0 => arr
  | arr, Nat.succ n => popLoop arr.dropLast n

/-- The grow loop of `setRetryLevels`: `for(let i = this.retries; i < count; i++)
this.topicsArr.push(this.topic + '-cascade-retry-' + (i+1))`
(`cascadeService.ts` lines 110-112), embedded by structural recursion on the
number `count - i` of remaining iterations (`i` is the loop counter). -/
def pushLoop (topic : String) : List String → Nat → Nat → List String
  | arr, _, 0 => arr
  | arr, i, Nat.succ rem => pushLoop topic (arr ++ [retryTopicName topic (i + 1)]) (i + 1) rem

/-- The synchronous array-resizing part of `CascadeService.setRetryLevels`
(`cascadeService.ts` lines 103-116): shrink by popping when
`topicsArr.length > count`, otherwise grow from index `this.retries`
(the grow loop runs `count - this.retries` times, zero when
`this.retries ≥ count`); afterwards `this.retries = count`. -/
def setRetryLevelsArr (s : ServiceState) (count : Nat) : ServiceState :=
  if s.topicsArr.length > count then
    { s with topicsArr := popLoop s.topicsArr (s.topicsArr.length - count),
             retries := count }
  else
    { s with topicsArr := pushLoop s.topic s.topicsArr s.retries (count - s.retries),
             retries := count }

/-- The state after a whole sequence of `setRetryLevels` calls. -/
def applyCalls (s : ServiceState) (calls : List Nat) : ServiceState :=
  calls.foldl setRetryLevelsArr s

/-- The canonical retry-level list of length `n`:
`[<topic>-cascade-retry-1, .., <topic>-cascade-retry-n]`. -/
def canonicalArr (topic : String) (n : Nat) : List String :=
  (List.range n).map (fun i => retryTopicName topic (i + 1))

-- Helper lemmas about the two loops.

theorem popLoop_eq_take (n : Nat) :
    ∀ arr : List String, popLoop arr n = arr.take (arr.length - n) := by
  induction n with
  | zero => intro arr; simp [popLoop]
  | succ k ih =>
      intro arr
      simp only [popLoop]
      rw [ih arr.dropLast, List.dropLast_eq_take]
      rw [List.take_take, List.length_take]
      congr 1
      omega

theorem canonicalArr_succ (topic : String) (n : Nat) :
    canonicalArr topic (n + 1) = canonicalArr topic n ++ [retryTopicName topic (n + 1)] := by
  simp [canonicalArr, List.range_succ]

theorem canonicalArr_length (topic : String) (n : Nat) :
    (canonicalArr topic n).length = n := by
  simp [canonicalArr]

theorem canonicalArr_take (topic : String) (m n : Nat) (h : m ≤ n) :
    (canonicalArr topic n).take m = canonicalArr topic m := by
  simp [canonicalArr, ← List.map_take, List.take_range, Nat.min_eq_left h]

theorem pushLoop_canonical (topic : String) :
    ∀ d n : Nat, pushLoop topic (canonicalArr topic n) n d = canonicalArr topic (n + d) := by
  intro d
  induction d with
  | zero => intro n; rfl
  | succ k ih =>
      intro n
      show pushLoop topic (canonicalArr topic n ++ [retryTopicName topic (n + 1)]) (n + 1) k
            = canonicalArr topic (n + (k + 1))
      rw [← canonicalArr_succ, ih (n + 1)]
      congr 1
      omega

/-- The invariant: the state is canonical for its `retries` count. -/
def goodState (s : ServiceState) : Prop :=
  s.topicsArr = canonicalArr s.topic s.retries

theorem initState_good (topic : String) : goodState (initState topic) := by
  simp [goodState, initState, canonicalArr]

theorem setRetryLevelsArr_topic (s : ServiceState) (count : Nat) :
    (setRetryLevelsArr s count).topic = s.topic := by
  unfold setRetryLevelsArr
  split <;> rfl

theorem setRetryLevelsArr_retries (s : ServiceState) (count : Nat) :
    (setRetryLevelsArr s count).retries = count := by
  unfold setRetryLevelsArr
  split <;> rfl

theorem setRetryLevelsArr_good (s : ServiceState) (count : Nat) (hs : goodState s) :
    goodState (setRetryLevelsArr s count) := by
  unfold goodState at hs ⊢
  rw [setRetryLevelsArr_topic, setRetryLevelsArr_retries]
  unfold setRetryLevelsArr
  by_cases hgt : s.topicsArr.length > count
  · simp only [hgt, if_true]
    have hlen : s.topicsArr.length = s.retries := by
      rw [hs, canonicalArr_length]
    rw [popLoop_eq_take, hs, canonicalArr_length]
    have hc : s.retries - (s.retries - count) = count := by omega
    rw [hc]
    exact canonicalArr_take s.topic count s.retries (by omega)
  · simp only [hgt, if_false]
    have hlen : s.topicsArr.length = s.retries := by
      rw [hs, canonicalArr_length]
    have hle : s.retries ≤ count := by omega
    rw [hs, pushLoop_canonical s.topic (count - s.retries) s.retries]
    congr 1
    omega

theorem applyCalls_good (s : ServiceState) (calls : List Nat) (hs : goodState s) :
    goodState (applyCalls s calls) := by
  induction calls generalizing s with
  | nil => exact hs
  | cons c rest ih =>
      exact ih (setRetryLevelsArr s c) (setRetryLevelsArr_good s c hs)

theorem applyCalls_topic (s : ServiceState) (calls : List Nat) :
    (applyCalls s calls).topic = s.topic := by
  induction calls generalizing s with
  | nil => rfl
  | cons c rest ih =>
      show (applyCalls (setRetryLevelsArr s c) rest).topic = s.topic
      rw [ih (setRetryLevelsArr s c), setRetryLevelsArr_topic]

theorem applyCalls_append_single (s : ServiceState) (h : List Nat) (N : Nat) :
    applyCalls s (h ++ [N]) = setRetryLevelsArr (applyCalls s h) N := by
  simp [applyCalls, List.foldl_append]

/-- C1: for every non-negative integer `N`, after a completed
`setRetryLevels(N)` call the retry-level list `topicsArr` has exactly `N`
entries and entry `i` (0-based) is `<topic>-cascade-retry-<i+1>`, regardless
of the sequence of earlier `setRetryLevels` calls. -/
theorem setRetryLevels_naming_stable (topic : String) (history : List Nat) (N : Nat) :
    (applyCalls (initState topic) (history ++ [N])).topicsArr
      = (List.range N).map (fun i => topic ++ "-cascade-retry-" ++ Nat.repr (i + 1)) ∧
    (applyCalls (initState topic) (history ++ [N])).topicsArr.length = N := by
  have hgood : goodState (applyCalls (initState topic) (history ++ [N])) :=
    applyCalls_good _ _ (initState_good topic)
  have htopic : (applyCalls (initState topic) (history ++ [N])).topic = topic :=
    applyCalls_topic _ _
  have hret : (applyCalls (initState topic) (history ++ [N])).retries = N := by
    rw [applyCalls_append_single, setRetryLevelsArr_retries]
  unfold goodState at hgood
  rw [htopic, hret] at hgood
  constructor
  · rw [hgood]; rfl
  · rw [hgood, canonicalArr_length]

/-- C10: after construction and after every completed sequence of
`setRetryLevels` calls, the `retries` field equals `topicsArr.length`, and
after a call with count `N` it equals `N` (the last count passed). -/
theorem retries_eq_topicsArr_length (topic : String) (history : List Nat) :
    (applyCalls (initState topic) history).retries
      = (applyCalls (initState topic) history).topicsArr.length ∧
    ∀ N : Nat, (applyCalls (initState topic) (history ++ [N])).retries = N := by
  constructor
  · have hgood : goodState (applyCalls (initState topic) history) :=
      applyCalls_good _ _ (initState_good topic)
    unfold goodState at hgood
    rw [hgood, canonicalArr_length]
  · intro N
    rw [applyCalls_append_single, setRetryLevelsArr_retries]

/-- `CascadeService.on` (`cascadeService.ts` lines 227-230):
`if(!this.events.includes(event)) throw new Error('Unknown event: ' + event);
super.on(event, callback);` — `Except.ok true` models the handler having been
registered by `super.on`; `Except.error msg` models the synchronous throw,
which happens before any registration. -/
def serviceOn (event : String) : Except String Bool :=
  if !(events.contains event) then Except.error ("Unknown event: " ++ event)
  else Except.ok true

/-- C5: `on(event, cb)` synchronously throws (with the unknown-event message)
and registers no handler exactly when `event` is outside the fixed recognized
set; for every name in the set it registers the handler and does not throw. -/
theorem on_closed_event_set :
    events = [ "connect", "disconnect", "run", "stop", "pause", "resume",
               "receive", "success", "retry", "dlq", "error", "serviceError" ] ∧
    (∀ e : String, e ∈ events → serviceOn e = Except.ok true) ∧
    (∀ e : String, e ∉ events → serviceOn e = Except.error ("Unknown event: " ++ e)) := by
  refine ⟨rfl, ?_, ?_⟩
  · intro e he
    simp [serviceOn, he]
  · intro e he
    simp [serviceOn, he]

theorem on_closed_event_set_witness :
    ("connect" ∈ events ∧ serviceOn "connect" = Except.ok true) ∧
    ("nonsense" ∉ events ∧
      serviceOn "nonsense" = Except.error ("Unknown event: " ++ "nonsense")) :=
  ⟨⟨by decide, on_closed_event_set.2.1 "connect" (by decide)⟩,
   ⟨by decide, on_closed_event_set.2.2 "nonsense" (by decide)⟩⟩

/-- The pause/resume sub-operations a call may delegate to. -/
inductive SubCall
  | consumerPause
  | producerPause
  | consumerResume
  | producerResume
  deriving DecidableEq, Repr

/-- Result of one `pause()`/`resume()` call: the producer-side paused flag
afterwards, the events emitted, and the sub-operations invoked. -/
structure PauseResult where
  producerPaused : Bool
  emitted : List String
  calls : List SubCall
  deriving DecidableEq, Repr

/-- `CascadeService.pause` (`cascadeService.ts` lines 184-201): guarded by
`if (!this.producer.paused)`; the guarded branch awaits `consumer.pause()`,
calls `producer.pause()` and emits `pause` (the flag becoming `true` is the
producer's flag toggle, modelled from the spec §4.2; the sub-calls are taken
as succeeding); the other branch only `console.log`s. -/
def servicePause (producerPaused : Bool) : PauseResult :=
  if !producerPaused then
    { producerPaused := true, emitted := ["pause"],
      calls := [SubCall.consumerPause, SubCall.producerPause] }
  else
    { producerPaused := producerPaused, emitted := [], calls := [] }

/-- `CascadeService.resume` (`cascadeService.ts` lines 208-225): guarded by
`if (this.producer.paused)`; the guarded branch awaits `consumer.resume()`
and `producer.resume()` and emits `resume`; the other branch only
`console.log`s. -/
def serviceResume (producerPaused : Bool) : PauseResult :=
  if producerPaused then
    { producerPaused := false, emitted := ["resume"],
      calls := [SubCall.consumerResume, SubCall.producerResume] }
  else
    { producerPaused := producerPaused, emitted := [], calls := [] }

/-- C3: `pause()` in the already-paused state leaves the pause state
unchanged, emits no event and invokes no sub-operation; symmetrically for
`resume()` in the running state. -/
theorem pause_resume_idempotent_noop :
    servicePause true = { producerPaused := true, emitted := [], calls := [] } ∧
    serviceResume false = { producerPaused := false, emitted := [], calls := [] } :=
  ⟨rfl, rfl⟩

/-- One observable step of the per-message wiring installed by `run()`
(`cascadeService.ts` lines 148-157); messages are identified by a `Nat` id. -/
inductive RunStep
  | emitSuccessEvent (m : Nat)
  | callSuccessCB (m : Nat)
  | handToProducerSend (m : Nat)
  deriving DecidableEq, Repr

/-- The per-message dispatch wired by `run()`: the success callback handed to
`consumer.run` is `(msg) => { this.emit('success', msg); this.successCB(msg) }`
(`cascadeService.ts` line 149), the failure callback hands the message to
`producer.send` (lines 150-157). `resolved = true` is the success path. -/
def processMessage (m : Nat) : Bool → List RunStep
  | true => [RunStep.emitSuccessEvent m, RunStep.callSuccessCB m]
  | false => [RunStep.handToProducerSend m]

/-- C8: on the success path of every processed message the service emits
`success` and then invokes the user success callback, in that order, each
exactly once. -/
theorem success_path_emit_then_callback (m : Nat) :
    processMessage m true = [RunStep.emitSuccessEvent m, RunStep.callSuccessCB m] ∧
    (processMessage m true).count (RunStep.emitSuccessEvent m) = 1 ∧
    (processMessage m true).count (RunStep.callSuccessCB m) = 1 ∧
    (processMessage m true).indexOf (RunStep.emitSuccessEvent m)
      < (processMessage m true).indexOf (RunStep.callSuccessCB m) := by
  refine ⟨rfl, ?_, ?_, ?_⟩ <;>
    simp [processMessage, List.count_cons, List.indexOf_cons]

/-- Result of one `CascadeProducer.send` call: where the message was
published (if anywhere), its outgoing `retries` header, whether the
dead-letter callback ran, and the events emitted. -/
structure SendResult where
  publishedTopic : Option String
  outgoingRetries : Option Nat
  dlqCalled : Bool
  emitted : List String
  deriving DecidableEq, Repr

/-- Modelled from the spec: `CascadeProducer.send` — the file
`cascadeProducer.ts` is not among this development's sources, only its caller
`CascadeService` is.  Per §4.2: read the message's `retries` metadata
(default 0 when absent); if `retries < len(RetryLevelList)` publish to
`RetryLevelList[retries]` with `retries` incremented by 1 in the outgoing
message and emit `retry`; else invoke the configured dead-letter callback and
emit `dlq`. -/
def producerSend (retryTopics : List String) (msgRetries : Option Nat) : SendResult :=
  let k := msgRetries.getD 0
  if h : k < retryTopics.length then
    { publishedTopic := some (retryTopics.get ⟨k, h⟩),
      outgoingRetries := some (k + 1),
      dlqCalled := false,
      emitted := ["retry"] }
  else
    { publishedTopic := none,
      outgoingRetries := none,
      dlqCalled := true,
      emitted := ["dlq"] }

/-- C2: with retry-level list of length `N` and incoming `retries = k`
(default 0), `send` publishes to the entry at index `k` with outgoing
`retries = k + 1` and emits `retry` when `k < N`; when `k ≥ N` it invokes
the dead-letter callback and emits `dlq`. -/
theorem send_routing (retryTopics : List String) (msgRetries : Option Nat) :
    (msgRetries.getD 0 < retryTopics.length →
      (producerSend retryTopics msgRetries).publishedTopic
          = retryTopics.get? (msgRetries.getD 0) ∧
      (producerSend retryTopics msgRetries).outgoingRetries
          = some (msgRetries.getD 0 + 1) ∧
      (producerSend retryTopics msgRetries).dlqCalled = false ∧
      (producerSend retryTopics msgRetries).emitted = ["retry"]) ∧
    (retryTopics.length ≤ msgRetries.getD 0 →
      (producerSend retryTopics msgRetries).publishedTopic = none ∧
      (producerSend retryTopics msgRetries).dlqCalled = true ∧
      (producerSend retryTopics msgRetries).emitted = ["dlq"]) := by
  constructor
  · intro hlt
    simp [producerSend, hlt, List.get?_eq_get hlt]
  · intro hge
    have hnlt : ¬ msgRetries.getD 0 < retryTopics.length := by omega
    simp [producerSend, hnlt]

theorem send_routing_witness :
    ((0 : Nat) < 2 ∧
      (producerSend ["t-cascade-retry-1", "t-cascade-retry-2"] none).publishedTopic
          = ["t-cascade-retry-1", "t-cascade-retry-2"].get? 0 ∧
      (producerSend ["t-cascade-retry-1", "t-cascade-retry-2"] none).outgoingRetries
          = some 1 ∧
      (producerSend ["t-cascade-retry-1", "t-cascade-retry-2"] none).dlqCalled = false ∧
      (producerSend ["t-cascade-retry-1", "t-cascade-retry-2"] none).emitted = ["retry"]) ∧
    ((2 : Nat) ≤ 5 ∧
      (producerSend ["t-cascade-retry-1", "t-cascade-retry-2"] (some 5)).publishedTopic
          = none ∧
      (producerSend ["t-cascade-retry-1", "t-cascade-retry-2"] (some 5)).dlqCalled = true ∧
      (producerSend ["t-cascade-retry-1", "t-cascade-retry-2"] (some 5)).emitted = ["dlq"]) :=
  ⟨⟨by decide,
    (send_routing ["t-cascade-retry-1", "t-cascade-retry-2"] none).1 (by decide)⟩,
   ⟨by decide,
    (send_routing ["t-cascade-retry-1", "t-cascade-retry-2"] (some 5)).2 (by decide)⟩⟩

/-- One step in the execution of `CascadeService.connect`; the begin/end
split of each awaited sub-connect records that `await this.producer.connect()`
must return before `this.consumer.connect()` is even entered. -/
inductive ConnectStep
  | producerConnectBegin
  | producerConnectEnd (ok : Bool)
  | consumerConnectBegin
  | consumerConnectEnd (ok : Bool)
  | emitConnect
  | emitError (msg : String)
  deriving DecidableEq, Repr

/-- `CascadeService.connect` (`cascadeService.ts` lines 69-82):
`await this.producer.connect(); await this.consumer.connect();
this.emit('connect'); resolve(true)` with a catch that emits
`'Error in cascade.connect(): ' + error` and rejects.  A sub-connect outcome
`none` succeeds; `some e` throws `e`.  Returns the step trace and the
settlement of the returned promise. -/
def connectRun (producerOutcome consumerOutcome : Option String) :
    List ConnectStep × Except String Bool :=
  match producerOutcome with
  | some e =>
      ([ ConnectStep.producerConnectBegin, ConnectStep.producerConnectEnd false,
         ConnectStep.emitError ("Error in cascade.connect(): " ++ e) ],
       Except.error e)
  | none =>
      match consumerOutcome with
      | some e =>
          ([ ConnectStep.producerConnectBegin, ConnectStep.producerConnectEnd true,
             ConnectStep.consumerConnectBegin, ConnectStep.consumerConnectEnd false,
             ConnectStep.emitError ("Error in cascade.connect(): " ++ e) ],
           Except.error e)
      | none =>
          ([ ConnectStep.producerConnectBegin, ConnectStep.producerConnectEnd true,
             ConnectStep.consumerConnectBegin, ConnectStep.consumerConnectEnd true,
             ConnectStep.emitConnect ],
           Except.ok true)

/-- C4: in every execution of `connect()`, the producer's connect completes
(successfully) before the consumer's connect begins, and the `connect` event
is emitted only when both succeed, strictly after both completions. -/
theorem connect_producer_before_consumer (p c : Option String) :
    (∀ i : Nat, (connectRun p c).1.get? i = some ConnectStep.consumerConnectBegin →
        ConnectStep.producerConnectEnd true ∈ (connectRun p c).1.take i) ∧
    (ConnectStep.emitConnect ∈ (connectRun p c).1 ↔ p = none ∧ c = none) ∧
    (∀ i : Nat, (connectRun p c).1.get? i = some ConnectStep.emitConnect →
        ConnectStep.producerConnectEnd true ∈ (connectRun p c).1.take i ∧
        ConnectStep.consumerConnectEnd true ∈ (connectRun p c).1.take i) := by
  rcases p with _ | e
  · rcases c with _ | e
    · refine ⟨?_, ?_, ?_⟩
      · intro i hi
        rcases i with _ | _ | _ | _ | _ | i <;> simp [connectRun] at hi ⊢
      · simp [connectRun]
      · intro i hi
        rcases i with _ | _ | _ | _ | _ | i <;> simp [connectRun] at hi ⊢
    · refine ⟨?_, ?_, ?_⟩
      · intro i hi
        rcases i with _ | _ | _ | _ | _ | i <;> simp [connectRun] at hi ⊢
      · simp [connectRun]
      · intro i hi
        rcases i with _ | _ | _ | _ | _ | i <;> simp [connectRun] at hi ⊢
  · refine ⟨?_, ?_, ?_⟩
    · intro i hi
      rcases i with _ | _ | _ | i <;> simp [connectRun] at hi ⊢
    · simp [connectRun]
    · intro i hi
      rcases i with _ | _ | _ | i <;> simp [connectRun] at hi ⊢

theorem connect_producer_before_consumer_witness :
    ((connectRun none none).1.get? 2 = some ConnectStep.consumerConnectBegin ∧
      ConnectStep.producerConnectEnd true ∈ (connectRun none none).1.take 2) ∧
    ((connectRun none none).1.get? 4 = some ConnectStep.emitConnect ∧
      ConnectStep.producerConnectEnd true ∈ (connectRun none none).1.take 4 ∧
      ConnectStep.consumerConnectEnd true ∈ (connectRun none none).1.take 4) :=
  ⟨⟨by decide, (connect_producer_before_consumer none none).1 2 (by decide)⟩,
   ⟨by decide, (connect_producer_before_consumer none none).2.2 4 (by decide)⟩⟩

/-- An event emitted on the service's channel: its name and, for `error`
events, the component-qualified message passed along with it. -/
structure Emitted where
  name : String
  payload : Option String
  deriving DecidableEq, Repr

/-- Events emitted by one `ConnectStep`. -/
def connectStepEmits : ConnectStep → List Emitted
  | ConnectStep.emitConnect => [⟨"connect", none⟩]
  | ConnectStep.emitError m => [⟨"error", some m⟩]
  | _ => []

/-- The events `connect()` emits, in order. -/
def connectEmitted (p c : Option String) : List Emitted :=
  ((connectRun p c).1).flatMap connectStepEmits

/-- The outcome of the first failing awaited sub-operation in a sequence
(`none` when all succeed) — the error that reaches the `catch` block. -/
def firstFailure : List (Option String) → Option String
  | [] => none
  | none :: rest => firstFailure rest
  | some e :: _ => some e

/-- The common shape of `disconnect`, `setRetryLevels` (admin part), `run`
and `stop` in `cascadeService.ts`: a `new Promise` whose body awaits a fixed
sequence of sub-operations, emits `successEmits` and resolves on success, and
on the first thrown error emits `'Error in cascade.<opName>(): ' + error` and
rejects with that error. -/
def lifecycleOp (opName : String) (successEmits : List Emitted)
    (subs : List (Option String)) : List Emitted × Except String Bool :=
  match firstFailure subs with
  | none => (successEmits, Except.ok true)
  | some e =>
      ([⟨"error", some ("Error in cascade." ++ opName ++ "(): " ++ e)⟩],
       Except.error e)

/-- `CascadeService.disconnect` (`cascadeService.ts` lines 84-98): awaits
`producer.stop()`, `producer.disconnect()`, `consumer.disconnect()`, then
emits `disconnect`. -/
def disconnectRun (producerStop producerDisconnect consumerDisconnect : Option String) :
    List Emitted × Except String Bool :=
  lifecycleOp "disconnect" [⟨"disconnect", none⟩]
    [producerStop, producerDisconnect, consumerDisconnect]

/-- The fallible admin part of `CascadeService.setRetryLevels`
(`cascadeService.ts` lines 119-141): awaits `admin.connect()`,
`admin.createTopics(...)`, `admin.listTopics()`, `admin.disconnect()`;
resolution emits no event of its own. -/
def setRetryLevelsAdmin (adminConnect createTopics listTopics adminDisconnect : Option String) :
    List Emitted × Except String Bool :=
  lifecycleOp "setRetryLevels" []
    [adminConnect, createTopics, listTopics, adminDisconnect]

/-- The subscription-establishment part of `CascadeService.run`
(`cascadeService.ts` lines 145-166): awaits `consumer.run(...)`, then emits
`run`. -/
def runEstablish (consumerRun : Option String) : List Emitted × Except String Bool :=
  lifecycleOp "run" [⟨"run", none⟩] [consumerRun]

/-- `CascadeService.stop` (`cascadeService.ts` lines 168-182): awaits
`consumer.stop()`, `producer.stop()`, then emits `stop`. -/
def stopRun (consumerStop producerStop : Option String) :
    List Emitted × Except String Bool :=
  lifecycleOp "stop" [⟨"stop", none⟩] [consumerStop, producerStop]

theorem lifecycleOp_failure (opName : String) (successEmits : List Emitted)
    (subs : List (Option String)) (e : String) (h : firstFailure subs = some e) :
    (lifecycleOp opName successEmits subs).2 = Except.error e ∧
    Emitted.mk "error" (some ("Error in cascade." ++ opName ++ "(): " ++ e))
      ∈ (lifecycleOp opName successEmits subs).1 := by
  simp [lifecycleOp, h]

/-- C6: for each lifecycle operation (`connect`, `disconnect`,
`setRetryLevels`, `run`, `stop`), when an underlying sub-operation fails the
returned promise rejects with that error AND an `error` event carrying the
component-qualified message is emitted. -/
theorem lifecycle_reject_and_emit_error (e : String) :
    (∀ p c, firstFailure [p, c] = some e →
        (connectRun p c).2 = Except.error e ∧
        Emitted.mk "error" (some ("Error in cascade.connect(): " ++ e))
          ∈ connectEmitted p c) ∧
    (∀ a b c, firstFailure [a, b, c] = some e →
        (disconnectRun a b c).2 = Except.error e ∧
        Emitted.mk "error" (some ("Error in cascade.disconnect(): " ++ e))
          ∈ (disconnectRun a b c).1) ∧
    (∀ a b c d, firstFailure [a, b, c, d] = some e →
        (setRetryLevelsAdmin a b c d).2 = Except.error e ∧
        Emitted.mk "error" (some ("Error in cascade.setRetryLevels(): " ++ e))
          ∈ (setRetryLevelsAdmin a b c d).1) ∧
    (∀ a, firstFailure [a] = some e →
        (runEstablish a).2 = Except.error e ∧
        Emitted.mk "error" (some ("Error in cascade.run(): " ++ e))
          ∈ (runEstablish a).1) ∧
    (∀ a b, firstFailure [a, b] = some e →
        (stopRun a b).2 = Except.error e ∧
        Emitted.mk "error" (some ("Error in cascade.stop(): " ++ e))
          ∈ (stopRun a b).1) := by
  refine ⟨?_, ?_, ?_, ?_, ?_⟩
  · intro p c h
    rcases p with _ | e1
    · rcases c with _ | e2
      · simp [firstFailure] at h
      · simp [firstFailure] at h
        subst h
        simp [connectRun, connectEmitted, connectStepEmits]
    · simp [firstFailure] at h
      subst h
      simp [connectRun, connectEmitted, connectStepEmits]
  · intro a b c h
    exact lifecycleOp_failure "disconnect" _ _ e h
  · intro a b c d h
    exact lifecycleOp_failure "setRetryLevels" _ _ e h
  · intro a h
    exact lifecycleOp_failure "run" _ _ e h
  · intro a b h
    exact lifecycleOp_failure "stop" _ _ e h

theorem lifecycle_reject_and_emit_error_witness :
    (firstFailure [some "boom", none] = some "boom" ∧
      (connectRun (some "boom") none).2 = Except.error "boom" ∧
      Emitted.mk "error" (some ("Error in cascade.connect(): " ++ "boom"))
        ∈ connectEmitted (some "boom") none) ∧
    (firstFailure [none, some "boom", none] = some "boom" ∧
      (disconnectRun none (some "boom") none).2 = Except.error "boom" ∧
      Emitted.mk "error" (some ("Error in cascade.disconnect(): " ++ "boom"))
        ∈ (disconnectRun none (some "boom") none).1) ∧
    (firstFailure [none, none, none, some "boom"] = some "boom" ∧
      (setRetryLevelsAdmin none none none (some "boom")).2 = Except.error "boom" ∧
      Emitted.mk "error" (some ("Error in cascade.setRetryLevels(): " ++ "boom"))
        ∈ (setRetryLevelsAdmin none none none (some "boom")).1) ∧
    (firstFailure [some "boom"] = some "boom" ∧
      (runEstablish (some "boom")).2 = Except.error "boom" ∧
      Emitted.mk "error" (some ("Error in cascade.run(): " ++ "boom"))
        ∈ (runEstablish (some "boom")).1) ∧
    (firstFailure [none, some "boom"] = some "boom" ∧
      (stopRun none (some "boom")).2 = Except.error "boom" ∧
      Emitted.mk "error" (some ("Error in cascade.stop(): " ++ "boom"))
        ∈ (stopRun none (some "boom")).1) :=
  ⟨⟨by decide, (lifecycle_reject_and_emit_error "boom").1 (some "boom") none (by decide)⟩,
   ⟨by decide, (lifecycle_reject_and_emit_error "boom").2.1 none (some "boom") none (by decide)⟩,
   ⟨by decide, (lifecycle_reject_and_emit_error "boom").2.2.1 none none none (some "boom") (by decide)⟩,
   ⟨by decide, (lifecycle_reject_and_emit_error "boom").2.2.2.1 (some "boom") (by decide)⟩,
   ⟨by decide, (lifecycle_reject_and_emit_error "boom").2.2.2.2 none (some "boom") (by decide)⟩⟩

/-- The failure callback wired by `run()` (`cascadeService.ts` lines
150-157): `try { await this.producer.send(msg) } catch(error)
{ this.emit('error', 'Error in cascade producer.send(): ' + error) }`.
Input: the outcome of `producer.send` (`none` = success, `some e` = threw
`e`).  Output: the events emitted, and the error (if any) propagating out of
the callback. -/
def sendFailureCallback (sendOutcome : Option String) : List Emitted × Option String :=
  match sendOutcome with
  | none => ([], none)
  | some e => ([⟨"error", some ("Error in cascade producer.send(): " ++ e)⟩], none)

/-- The consume loop driving one failure callback per failed message:
processes messages in order, accumulating emitted events; an error
propagating out of a callback would terminate the loop early.  Returns the
events and the number of messages actually processed. -/
def consumeLoop : List (Option String) → List Emitted × Nat
  | [] => ([], 0)
  | o :: rest =>
      let r := sendFailureCallback o
      match r.2 with
      | some _ => (r.1, 1)
      | none =>
          let t := consumeLoop rest
          (r.1 ++ t.1, t.2 + 1)

/-- `run()` including its wiring (`cascadeService.ts` lines 145-166): the
returned promise settles on the outcome of `consumer.run` alone; the per
message `producer.send` outcomes only feed the background consume loop. -/
def runService (consumerRunOutcome : Option String) (sendOutcomes : List (Option String)) :
    List Emitted × Except String Bool :=
  match consumerRunOutcome with
  | some e =>
      ([⟨"error", some ("Error in cascade.run(): " ++ e)⟩], Except.error e)
  | none =>
      (⟨"run", none⟩ :: (consumeLoop sendOutcomes).1, Except.ok true)

/-- C7: an error thrown by `producer.send` while routing one failed message
is caught inside the failure callback and surfaced only as an `error` event;
it never propagates out of the callback, never rejects `run()`'s promise,
and never terminates the consume loop (every message is still processed). -/
theorem send_error_contained :
    (∀ e : String, sendFailureCallback (some e)
        = ([⟨"error", some ("Error in cascade producer.send(): " ++ e)⟩], none)) ∧
    (∀ o : Option String, (sendFailureCallback o).2 = none) ∧
    (∀ sendOutcomes : List (Option String),
        (consumeLoop sendOutcomes).2 = sendOutcomes.length) ∧
    (∀ sendOutcomes : List (Option String),
        (runService none sendOutcomes).2 = Except.ok true) := by
  refine ⟨fun e => rfl, ?_, ?_, fun sendOutcomes => rfl⟩
  · intro o
    rcases o with _ | e <;> rfl
  · intro sendOutcomes
    induction sendOutcomes with
    | nil => rfl
    | cons o rest ih =>
        rcases o with _ | e <;>
          simp [consumeLoop, sendFailureCallback, ih]

/-- The value of `topicsArr` after one execution step inside
`setRetryLevels`, together with whether that step is a suspension point (an
`await` or timer, where the cooperative scheduler may run a concurrent
`send`). -/
structure MutStep where
  arr : List String
  suspends : Bool
  deriving DecidableEq, Repr

/-- The intermediate `topicsArr` values of the shrink loop, one per `pop`;
all synchronous (no `await` inside the loop). -/
def popMutSteps : List String → Nat → List MutStep
  | _, 0 => []
  | arr, Nat.succ n => ⟨arr.dropLast, false⟩ :: popMutSteps arr.dropLast n

/-- The intermediate `topicsArr` values of the grow loop, one per `push`;
all synchronous (no `await` inside the loop). -/
def pushMutSteps (topic : String) : List String → Nat → Nat → List MutStep
  | _, _, 0 => []
  | arr, i, Nat.succ rem =>
      ⟨arr ++ [retryTopicName topic (i + 1)], false⟩ ::
        pushMutSteps topic (arr ++ [retryTopicName topic (i + 1)]) (i + 1) rem

/-- The full step sequence of `setRetryLevels(count)`
(`cascadeService.ts` lines 100-143) at `topicsArr` granularity: the in-place
pop/push mutation steps, then `producer.setRetryTopics(this.topicsArr)` and
`this.retries = count` (both synchronous), then the suspension points:
`await admin.connect()`, `await admin.createTopics(...)`,
`await admin.listTopics()`, `await admin.disconnect()` and the `setTimeout`
before `resolve`.  A concurrently issued `send` can only be scheduled at a
suspension point. -/
def resizeSteps (s : ServiceState) (count : Nat) : List MutStep :=
  let mutSteps :=
    if s.topicsArr.length > count then
      popMutSteps s.topicsArr (s.topicsArr.length - count)
    else
      pushMutSteps s.topic s.topicsArr s.retries (count - s.retries)
  let finalArr := (setRetryLevelsArr s count).topicsArr
  mutSteps ++
    [ ⟨finalArr, false⟩,
      ⟨finalArr, false⟩,
      ⟨finalArr, true⟩,
      ⟨finalArr, true⟩,
      ⟨finalArr, true⟩,
      ⟨finalArr, true⟩,
      ⟨finalArr, true⟩ ]

theorem popMutSteps_sync (n : Nat) :
    ∀ arr : List String, ∀ st ∈ popMutSteps arr n, st.suspends = false := by
  induction n with
  | zero => intro arr st hst; simp [popMutSteps] at hst
  | succ k ih =>
      intro arr st hst
      simp only [popMutSteps, List.mem_cons] at hst
      rcases hst with h | h
      · rw [h]
      · exact ih arr.dropLast st h

theorem pushMutSteps_sync (topic : String) :
    ∀ rem : Nat, ∀ arr : List String, ∀ i : Nat,
      ∀ st ∈ pushMutSteps topic arr i rem, st.suspends = false := by
  intro rem
  induction rem with
  | zero => intro arr i st hst; simp [pushMutSteps] at hst
  | succ k ih =>
      intro arr i st hst
      simp only [pushMutSteps, List.mem_cons] at hst
      rcases hst with h | h
      · rw [h]
      · exact ih _ _ st h

/-- C9: under the cooperative single-threaded scheduling model (spec §5),
a `send` interleaved with `setRetryLevels` can only run at a suspension
point, and at every suspension point of `setRetryLevels` the list the
producer routes against is the fully updated one — never a half-updated
intermediate (those occur only at synchronous, non-interleavable steps). -/
theorem resize_atomic_for_send (s : ServiceState) (count : Nat) (st : MutStep)
    (hmem : st ∈ resizeSteps s count) (hsusp : st.suspends = true) :
    st.arr = (setRetryLevelsArr s count).topicsArr := by
  unfold resizeSteps at hmem
  simp only [List.mem_append] at hmem
  rcases hmem with h | h
  · exfalso
    by_cases hgt : s.topicsArr.length > count
    · simp only [hgt, if_true] at h
      have := popMutSteps_sync _ _ st h
      rw [hsusp] at this
      exact Bool.noConfusion this
    · simp only [hgt, if_false] at h
      have := pushMutSteps_sync s.topic _ _ _ st h
      rw [hsusp] at this
      exact Bool.noConfusion this
  · simp only [List.mem_cons, List.not_mem_nil, or_false] at h
    rcases h with h | h | h | h | h | h | h <;> rw [h]

theorem resize_atomic_for_send_witness :
    (MutStep.mk ["t-cascade-retry-1"] true ∈ resizeSteps (initState "t") 1 ∧
      MutStep.mk ["t-cascade-retry-1"] true = MutStep.mk ["t-cascade-retry-1"] true) ∧
    (MutStep.mk ["t-cascade-retry-1"] true).arr
      = (setRetryLevelsArr (initState "t") 1).topicsArr :=
  ⟨⟨by decide, rfl⟩,
   resize_atomic_for_send (initState "t") 1 (MutStep.mk ["t-cascade-retry-1"] true)
     (by decide) (by decide)⟩

-- Sanity checks on concrete inputs: the spec's resize scenario
-- setRetryLevels(5); setRetryLevels(2); setRetryLevels(4).
example :
    (applyCalls (initState "t") [5, 2, 4]).topicsArr
      = [ "t-cascade-retry-1", "t-cascade-retry-2",
          "t-cascade-retry-3", "t-cascade-retry-4" ] := by
  decide

example : (applyCalls (initState "t") [3, 0]).topicsArr = [] := by decide

end KafkaCascade
